import Mathlib

set_option maxRecDepth 8192

/-!
Verification development for the BambuStudio utility pair:
a base64 file decoder script (src/base64_decoder.py) and an example
HTTP slicing client (src/slicer_service/examples/client.py).

The scripts delegate base64 handling to CPython's `base64.b64decode`
(which calls `binascii.a2b_base64` in non-strict mode) and
`base64.b64encode` (`binascii.b2a_base64`).  Those library routines are
embedded here faithfully, byte for byte, from their C implementation:
a quad-position state machine for decoding and a 3-byte chunk encoder.
-/

namespace BambuStudio

/-- Errors raised by `binascii.a2b_base64` / `base64.b64decode`:
`invalidLength` is CPython's "number of data characters cannot be 1 more
than a multiple of 4", `invalidPadding` is "Invalid padding", and
`nonAscii` is the `ValueError` raised by `_bytes_from_decode_data` when a
`str` argument contains non-ASCII characters. -/
inductive B64Error where
  | invalidLength
  | invalidPadding
  | nonAscii
deriving DecidableEq

instance instDecidableEqExcept {ε α : Type} [DecidableEq ε] [DecidableEq α] :
    DecidableEq (Except ε α)
  | .ok a, .ok b =>
    if h : a = b then isTrue (by rw [h])
    else isFalse (by intro he; cases he; exact h rfl)
  | .ok _, .error _ => isFalse (by intro h; cases h)
  | .error _, .ok _ => isFalse (by intro h; cases h)
  | .error e, .error f =>
    if h : e = f then isTrue (by rw [h])
    else isFalse (by intro he; cases he; exact h rfl)

/-- The standard base64 alphabet (CPython's `table_b2a_base64`). -/
def b64Alphabet : List Char :=
  "ABCDEFGHIJKLMNOPQRSTUVWXYZabcdefghijklmnopqrstuvwxyz0123456789+/".data

/-- Encoding table lookup `table_b2a_base64[v]` for a 6-bit group `v`. -/
def encChar (v : Nat) : Char :=
  b64Alphabet.getD v 'A'

/-- Decoding table `table_a2b_base64`: the index of `c` in the alphabet,
or `none` for any character outside it (the table stores -1 there). -/
def decVal (c : Char) : Option Nat :=
  let i := b64Alphabet.findIdx (fun a => a = c)
  if i < 64 then some i else none

/-- State machine of CPython's `binascii.a2b_base64` with
`strict_mode=False`, one step per input character.  State: the position
inside the current 4-character quad (`quad_pos`), the bits carried over
from the previous character (`leftchar`), the number of consecutive
padding characters seen (`pads`), and the bytes produced so far (`out`).
A `=` with `quad_pos ≥ 2` that completes a pad sequence ends decoding
successfully; characters outside the alphabet are skipped; at the end of
input a nonzero `quad_pos` is an error. -/
def a2bAux : List Char → Nat → Nat → Nat → List Nat →
    Except B64Error (List Nat)
  | [], quad_pos, _, _, out =>
    if quad_pos = 0 then .ok out
    else if quad_pos = 1 then .error .invalidLength
    else .error .invalidPadding
  | c :: cs, quad_pos, leftchar, pads, out =>
    if c = '=' then
      if 2 ≤ quad_pos then
        if 4 ≤ quad_pos + (pads + 1) then .ok out
        else a2bAux cs quad_pos leftchar (pads + 1) out
      else a2bAux cs quad_pos leftchar pads out
    else
      match decVal c with
      | none => a2bAux cs quad_pos leftchar pads out
      | some v =>
        match quad_pos with
        | 0 => a2bAux cs 1 v 0 out
        | 1 => a2bAux cs 2 (v &&& 15) 0 (out ++ [(leftchar <<< 2) ||| (v >>> 4)])
        | 2 => a2bAux cs 3 (v &&& 3) 0 (out ++ [(leftchar <<< 4) ||| (v >>> 2)])
        | _ => a2bAux cs 0 0 0 (out ++ [(leftchar <<< 6) ||| v])

/-- `binascii.a2b_base64(data, strict_mode=False)` on a character list. -/
def a2b (cs : List Char) : Except B64Error (List Nat) :=
  a2bAux cs 0 0 0 []

/-- `base64.b64decode(s)` for a `str` argument `s`: encode to ASCII
(raising `ValueError` on non-ASCII characters) and run `a2b_base64` in
non-strict mode. -/
def b64decode (s : String) : Except B64Error (List Nat) :=
  if s.data.all (fun c => c.toNat < 128) then a2b s.data
  else .error .nonAscii

/-- CPython's `binascii.b2a_base64` (without trailing newline, as used by
`base64.b64encode`), restated over 3-byte chunks: each full chunk yields
four alphabet characters, a trailing 1- or 2-byte group is padded
with `=`. -/
def b2a : List Nat → List Char
  | [] => []
  | [x] => [encChar (x >>> 2), encChar ((x &&& 3) <<< 4), '=', '=']
  | [x, y] => [encChar (x >>> 2), encChar (((x &&& 3) <<< 4) ||| (y >>> 4)),
      encChar ((y &&& 15) <<< 2), '=']
  | x :: y :: z :: rest =>
    encChar (x >>> 2) :: encChar (((x &&& 3) <<< 4) ||| (y >>> 4)) ::
      encChar (((y &&& 15) <<< 2) ||| (z >>> 6)) :: encChar (z &&& 63) ::
      b2a rest

/-- `base64.b64encode` of a byte list, viewed as the ASCII string it
produces. -/
def b64encode (b : List Nat) : String :=
  String.mk (b2a b)

/-- Python whitespace for `str.strip()` (the ASCII whitespace
characters; the decoder input is base64 text, which is ASCII). -/
def pySpace (c : Char) : Bool :=
  c = ' ' || c = '\t' || c = '\n' || c = '\x0b' || c = '\x0c' || c = '\r'

/-- Python `str.strip()`: drop leading and trailing whitespace. -/
def pyStrip (s : String) : String :=
  String.mk (((s.data.dropWhile pySpace).reverse.dropWhile pySpace).reverse)

/-- The decoder script's computation (src/base64_decoder.py lines 4-8):
read the content of `base64_input.txt` as text, strip surrounding
whitespace, and base64-decode the result. -/
def decoderRun (input : String) : Except B64Error (List Nat) :=
  b64decode (pyStrip input)

/-- Effect of one run of src/base64_decoder.py on `decoded_file.gcode`:
`input` is the text content of `base64_input.txt` and `prior` the content
of `decoded_file.gcode` before the run (`none` if absent).  The decode at
line 8 runs before line 11 opens the output file with mode "wb", so on a
decode error the script raises with the output file untouched; on success
the "wb" open truncates the file and the decoded bytes replace `prior`. -/
def decoderFS (input : String) (prior : Option (List Nat)) : Option (List Nat) :=
  match decoderRun input with
  | .ok bytes => some bytes
  | .error _ => prior

/-- Number of characters of `cs` that are in the base64 alphabet (the
characters `a2b_base64` treats as data, advancing the quad position). -/
def dataCount (cs : List Char) : Nat :=
  cs.countP (fun c => (decVal c).isSome)

/-- `true` exactly when the decode did not raise. -/
def decodeOk {α : Type} (r : Except B64Error α) : Bool :=
  match r with
  | .ok _ => true
  | .error _ => false

/-! ### Model of the slicer example client (src/slicer_service/examples/client.py) -/

/-- JSON values, as produced by `response.json()`.  Numbers are carried
as rationals; the client only passes them through to its console
output. -/
inductive Jval where
  | jnull
  | jbool (b : Bool)
  | jnum (q : Rat)
  | jstr (s : String)
  | jarr (elems : List Jval)
  | jobj (fields : List (String × Jval))

/-- Lookup of a key in a JSON object's field list (first match, as in a
Python dict built from unique JSON keys). -/
def lookupStr : List (String × Jval) → String → Option Jval
  | [], _ => none
  | (k, v) :: rest, key => if k = key then some v else lookupStr rest key

/-- Python's `result[key]` on a parsed JSON value: a successful lookup,
or `none` when the subscript raises (`KeyError` / `TypeError`). -/
def getField : Jval → String → Option Jval
  | .jobj fields, key => lookupStr fields key
  | _, _ => none

/-- How a client process run ends: `exit c` for `sys.exit(c)` or normal
termination (`exit 0`), `raised` for an uncaught exception. -/
inductive Outcome where
  | exit (code : Nat)
  | raised
deriving DecidableEq

/-- Console output of the client, one event per `print` call, carrying
the dynamic values interpolated into the message. -/
inductive PrintEvent where
  | loading (path : String)
  | sending (url : String)
  | errStatus (status : Nat)
  | errBody (body : Jval)
  | completed
  | jobId (v : Jval)
  | printTime (v : Jval)
  | filament (used wt : Rat)
  | cost (c : Rat)
  | saved (path : String)
  | size (n : Nat)
  | usage

/-- The single HTTP POST built by `slice_model`: target URL, the `model`
multipart file part with the model's binary content, and the `config`
text part. -/
structure SliceRequest where
  url : String
  fileField : String × List Nat
  dataField : String × String

/-- The fixed default preset selection hard-coded in `slice_model`. -/
def config : List (String × String) :=
  [("printer_preset", "Bambu Lab A1"),
   ("filament_preset", "Bambu PLA Basic @BBL A1"),
   ("process_preset", "0.20mm Standard @BBL A1")]

/-- A single-quote character, written via its code point. -/
def squote : Char := Char.ofNat 39

/-- Python `str()` of a dict of strings: entries in insertion order,
single-quoted keys and values, ", " between items, ": " between key and
value. -/
def pyDictRepr (kvs : List (String × String)) : String :=
  "\x7b" ++ String.intercalate ", "
      (kvs.map (fun kv => String.singleton squote ++ kv.1 ++ String.singleton squote
        ++ ": " ++ String.singleton squote ++ kv.2 ++ String.singleton squote))
    ++ "\x7d"

/-- Python `str.replace(old, new)` for single-character arguments. -/
def pyReplaceChar (s : String) (old new : Char) : String :=
  String.mk (s.data.map (fun c => if c = old then new else c))

/-- The value of the `config` field: `str(config).replace("'", chr(34))`
from the source, i.e. the dict repr with every single quote replaced by
a double quote. -/
def configStr : String :=
  pyReplaceChar (pyDictRepr config) squote '"'

/-- The request `requests.post(f"{server_url}/slice", files=files,
data=data)` sends. -/
def buildRequest (server_url : String) (content : List Nat) : SliceRequest :=
  { url := server_url ++ "/slice",
    fileField := ("model", content),
    dataField := ("config", configStr) }

/-- The HTTP response, as the client observes it: the status code and
the JSON value `response.json()` yields, or `none` when the body is not
valid JSON and `response.json()` raises. -/
structure Response where
  status : Nat
  body : Option Jval

/-- What `slice_model` does from the status check onward (client.py
lines 42-62): the prints it emits, the bytes it writes to `output_path`
(if any), the files it opens beyond the model file, and how the run
ends.  Field subscripts that would raise (`KeyError`, a non-JSON body,
a format spec applied to a non-number, a base64 error) end the run with
`raised` at the corresponding point. -/
def handleResponse (output_path : String) (resp : Response) : (List PrintEvent) × Option (List Nat) × List String × Outcome :=
  if resp.status ≠ 200 then
    match resp.body with
    | none => ([.errStatus resp.status], none, [], .raised)
    | some j => ([.errStatus resp.status, .errBody j], none, [], .exit 1)
  else
    match resp.body with
    | none => ([], none, [], .raised)
    | some result =>
      match getField result "stats" with
      | none => ([], none, [], .raised)
      | some stats =>
        match getField result "job_id" with
        | none => ([.completed], none, [], .raised)
        | some jid =>
          match getField stats "estimated_print_time" with
          | none => ([.completed, .jobId jid], none, [], .raised)
          | some pt =>
            match getField stats "total_used_filament", getField stats "total_weight" with
            | some (.jnum fl), some (.jnum wt) =>
              (match getField stats "total_cost" with
              | some (.jnum tc) =>
                (match getField result "gcode" with
                | some (.jstr g) =>
                  (match b64decode g with
                  | .ok gcode_bytes =>
                    ([.completed, .jobId jid, .printTime pt, .filament fl wt,
                      .cost tc, .saved output_path, .size gcode_bytes.length],
                     some gcode_bytes, [output_path], .exit 0)
                  | .error _ =>
                    ([.completed, .jobId jid, .printTime pt, .filament fl wt, .cost tc],
                     none, [], .raised))
                | _ =>
                  ([.completed, .jobId jid, .printTime pt, .filament fl wt, .cost tc],
                   none, [], .raised))
              | _ =>
                ([.completed, .jobId jid, .printTime pt, .filament fl wt],
                 none, [], .raised))
            | _, _ => ([.completed, .jobId jid, .printTime pt], none, [], .raised)

/-- Observable behaviour of one client run: console output, requests
sent, files successfully opened, bytes written to the output file, and
how the process ends. -/
structure ClientResult where
  printed : List PrintEvent
  requests : List SliceRequest
  opened : List String
  written : Option (List Nat)
  outcome : Outcome

/-- `slice_model(model_path, output_path, server_url)` from client.py:
`modelFile` is the content of the file at `model_path` (`none` when the
file is missing and `open` raises `IOError`), `resp` the response the
service returns to the single POST. -/
def slice_model (model_path output_path server_url : String)
    (modelFile : Option (List Nat)) (resp : Response) : ClientResult :=
  match modelFile with
  | none =>
    { printed := [.loading model_path], requests := [], opened := [],
      written := none, outcome := .raised }
  | some content =>
    let re := handleResponse output_path resp
    { printed := [.loading model_path, .sending (server_url ++ "/slice")] ++ re.1,
      requests := [buildRequest server_url content],
      opened := model_path :: re.2.2.1,
      written := re.2.1,
      outcome := re.2.2.2 }

/-- Default `server_url` parameter of `slice_model`. -/
def defaultServerUrl : String := "http://localhost:8080"

/-- The `if __name__ == "__main__"` block: `argv` is `sys.argv`
(program name first).  With fewer than 3 entries it prints usage and
exits with status 1; otherwise it calls
`slice_model(sys.argv[1], sys.argv[2])` with the default server URL. -/
def clientMain (argv : List String) (modelFile : Option (List Nat))
    (resp : Response) : ClientResult :=
  if argv.length < 3 then
    { printed := [.usage], requests := [], opened := [], written := none,
      outcome := .exit 1 }
  else
    slice_model (argv.getD 1 "") (argv.getD 2 "") defaultServerUrl modelFile resp

end BambuStudio

namespace BambuStudio


/-! ### Arithmetic facts about 6-bit groups (all ranges are finite) -/

theorem decVal_encChar : ∀ v : Nat, v < 64 → decVal (encChar v) = some v := by decide

theorem encChar_ne_pad : ∀ v : Nat, v < 64 → encChar v ≠ '=' := by decide

theorem unshift4 : ∀ a : Nat, a < 4 → ∀ b : Nat, b < 16 →
    ((a <<< 4) ||| b) >>> 4 = a := by decide

theorem relock2 : ∀ x : Nat, x < 256 → ((x >>> 2) <<< 2) ||| (x &&& 3) = x := by decide

theorem mask15 : ∀ a : Nat, a < 4 → ∀ b : Nat, b < 16 →
    ((a <<< 4) ||| b) &&& 15 = b := by decide

theorem unshift2 : ∀ a : Nat, a < 16 → ∀ b : Nat, b < 4 →
    ((a <<< 2) ||| b) >>> 2 = a := by decide

theorem relock4 : ∀ x : Nat, x < 256 → ((x >>> 4) <<< 4) ||| (x &&& 15) = x := by decide

theorem mask3 : ∀ a : Nat, a < 16 → ∀ b : Nat, b < 4 →
    ((a <<< 2) ||| b) &&& 3 = b := by decide

theorem relock6 : ∀ x : Nat, x < 256 → ((x >>> 6) <<< 6) ||| (x &&& 63) = x := by decide

theorem shr2_lt : ∀ x : Nat, x < 256 → x >>> 2 < 64 := by decide

theorem shr4_lt : ∀ x : Nat, x < 256 → x >>> 4 < 16 := by decide

theorem shr6_lt : ∀ x : Nat, x < 256 → x >>> 6 < 4 := by decide

theorem mix16_lt : ∀ a : Nat, a < 4 → ∀ b : Nat, b < 16 → (a <<< 4) ||| b < 64 := by decide

theorem mix4_lt : ∀ a : Nat, a < 16 → ∀ b : Nat, b < 4 → (a <<< 2) ||| b < 64 := by decide

theorem shl4_lt : ∀ a : Nat, a < 4 → a <<< 4 < 64 := by decide

theorem shl2_lt : ∀ a : Nat, a < 16 → a <<< 2 < 64 := by decide

theorem unshift4z : ∀ a : Nat, a < 4 → (a <<< 4) >>> 4 = a := by decide

theorem unshift2z : ∀ a : Nat, a < 16 → (a <<< 2) >>> 2 = a := by decide

theorem and_lt (x m : Nat) : x &&& m < m + 1 :=
  Nat.lt_succ_of_le Nat.and_le_right

/-! ### The decoder state machine on encoder output -/

theorem a2bAux_quad (v1 v2 v3 v4 : Nat) (h1 : v1 < 64) (h2 : v2 < 64)
    (h3 : v3 < 64) (h4 : v4 < 64) (cs : List Char) (p : Nat) (out : List Nat) :
    a2bAux (encChar v1 :: encChar v2 :: encChar v3 :: encChar v4 :: cs) 0 0 p out
      = a2bAux cs 0 0 0 (out ++
          [(v1 <<< 2) ||| (v2 >>> 4), ((v2 &&& 15) <<< 4) ||| (v3 >>> 2),
           ((v3 &&& 3) <<< 6) ||| v4]) := by
  have n1 := encChar_ne_pad v1 h1
  have n2 := encChar_ne_pad v2 h2
  have n3 := encChar_ne_pad v3 h3
  have n4 := encChar_ne_pad v4 h4
  have e1 := decVal_encChar v1 h1
  have e2 := decVal_encChar v2 h2
  have e3 := decVal_encChar v3 h3
  have e4 := decVal_encChar v4 h4
  simp [a2bAux, n1, n2, n3, n4, e1, e2, e3, e4]

theorem a2bAux_two_pad (v1 v2 : Nat) (h1 : v1 < 64) (h2 : v2 < 64)
    (p : Nat) (out : List Nat) :
    a2bAux [encChar v1, encChar v2, '=', '='] 0 0 p out
      = .ok (out ++ [(v1 <<< 2) ||| (v2 >>> 4)]) := by
  have n1 := encChar_ne_pad v1 h1
  have n2 := encChar_ne_pad v2 h2
  have e1 := decVal_encChar v1 h1
  have e2 := decVal_encChar v2 h2
  simp [a2bAux, n1, n2, e1, e2]

theorem a2bAux_three_pad (v1 v2 v3 : Nat) (h1 : v1 < 64) (h2 : v2 < 64)
    (h3 : v3 < 64) (p : Nat) (out : List Nat) :
    a2bAux [encChar v1, encChar v2, encChar v3, '='] 0 0 p out
      = .ok (out ++ [(v1 <<< 2) ||| (v2 >>> 4), ((v2 &&& 15) <<< 4) ||| (v3 >>> 2)]) := by
  have n1 := encChar_ne_pad v1 h1
  have n2 := encChar_ne_pad v2 h2
  have n3 := encChar_ne_pad v3 h3
  have e1 := decVal_encChar v1 h1
  have e2 := decVal_encChar v2 h2
  have e3 := decVal_encChar v3 h3
  simp [a2bAux, n1, n2, n3, e1, e2, e3]

theorem a2bAux_b2a (b : List Nat) (h : ∀ x ∈ b, x < 256) (p : Nat) (out : List Nat) :
    a2bAux (b2a b) 0 0 p out = .ok (out ++ b) := by
  induction b using b2a.induct generalizing p out with
  | case1 => simp [b2a, a2bAux]
  | case2 x =>
    have hx : x < 256 := h x (by simp)
    rw [b2a, a2bAux_two_pad _ _ (shr2_lt x hx) (shl4_lt _ (and_lt x 3))]
    rw [unshift4z _ (and_lt x 3), relock2 x hx]
  | case3 x y =>
    have hx : x < 256 := h x (by simp)
    have hy : y < 256 := h y (by simp)
    rw [b2a, a2bAux_three_pad _ _ _ (shr2_lt x hx)
        (mix16_lt _ (and_lt x 3) _ (shr4_lt y hy)) (shl2_lt _ (and_lt y 15))]
    rw [unshift4 _ (and_lt x 3) _ (shr4_lt y hy), relock2 x hx]
    rw [mask15 _ (and_lt x 3) _ (shr4_lt y hy), unshift2z _ (and_lt y 15), relock4 y hy]
  | case4 x y z rest ih =>
    have hx : x < 256 := h x (by simp)
    have hy : y < 256 := h y (by simp)
    have hz : z < 256 := h z (by simp)
    rw [b2a, a2bAux_quad _ _ _ _ (shr2_lt x hx)
        (mix16_lt _ (and_lt x 3) _ (shr4_lt y hy))
        (mix4_lt _ (and_lt y 15) _ (shr6_lt z hz)) (and_lt z 63)]
    rw [ih (fun a ha => h a (by simp [ha]))]
    rw [unshift4 _ (and_lt x 3) _ (shr4_lt y hy), relock2 x hx]
    rw [mask15 _ (and_lt x 3) _ (shr4_lt y hy),
        unshift2 _ (and_lt y 15) _ (shr6_lt z hz), relock4 y hy]
    rw [mask3 _ (and_lt y 15) _ (shr6_lt z hz), relock6 z hz]
    simp

theorem encChar_ascii_small : ∀ v : Nat, v < 64 → (encChar v).toNat < 128 := by decide

theorem encChar_ascii (v : Nat) : (encChar v).toNat < 128 := by
  by_cases h : v < 64
  · exact encChar_ascii_small v h
  · have hlen : b64Alphabet.length = 64 := by decide
    have : encChar v = 'A' := by
      unfold encChar
      rw [List.getD_eq_getElem?_getD, List.getElem?_eq_none (by omega)]
      rfl
    rw [this]
    decide

theorem b2a_ascii (b : List Nat) : (b2a b).all (fun c => c.toNat < 128) = true := by
  induction b using b2a.induct with
  | case1 => rfl
  | case2 x => simp [b2a, encChar_ascii]
  | case3 x y => simp [b2a, encChar_ascii]
  | case4 x y z rest ih => simp [b2a, encChar_ascii, ih]


theorem a2bAux_ok_iff (cs : List Char) (hpad : '=' ∉ cs) :
    ∀ q l p out, q < 4 →
      (decodeOk (a2bAux cs q l p out) = true ↔ (q + dataCount cs) % 4 = 0) := by
  induction cs with
  | nil =>
    intro q l p out hq
    interval_cases q <;> simp [a2bAux, dataCount, decodeOk]
  | cons c cs ih =>
    intro q l p out hq
    have hc : c ≠ '=' := fun h => hpad (h ▸ List.mem_cons_self c cs)
    have hrest : '=' ∉ cs := fun h => hpad (List.mem_cons_of_mem c h)
    cases hv : decVal c with
    | none =>
      have hcount : dataCount (c :: cs) = dataCount cs := by
        simp [dataCount, List.countP_cons, hv]
      rw [hcount]
      simp only [a2bAux, if_neg hc, hv]
      exact ih hrest q l p out hq
    | some v =>
      have hcount : dataCount (c :: cs) = dataCount cs + 1 := by
        simp [dataCount, List.countP_cons, hv]
      rw [hcount]
      interval_cases q <;>
        simp only [a2bAux, if_neg hc, hv] <;>
        [rw [ih hrest 1 v 0 out (by omega)];
         rw [ih hrest 2 (v &&& 15) 0 _ (by omega)];
         rw [ih hrest 3 (v &&& 3) 0 _ (by omega)];
         rw [ih hrest 0 0 0 _ (by omega)]] <;>
        omega

/-! ### Claims about the base64 decoder script -/

/-- C1: for every byte sequence `b` (any length, including 0),
base64-decoding the standard base64 encoding of `b`, with the decoder
the script's `base64.b64decode` call uses, yields exactly `b`. -/
theorem b64_roundtrip (b : List Nat) (h : ∀ x ∈ b, x < 256) :
    b64decode (b64encode b) = .ok b := by
  unfold b64decode b64encode
  rw [show (String.mk (b2a b)).data = b2a b from rfl, if_pos (b2a_ascii b)]
  unfold a2b
  rw [a2bAux_b2a b h 0 []]
  simp

theorem b64_roundtrip_witness :
    (∀ x ∈ [0, 77, 255, 10], x < 256) ∧
      b64decode (b64encode [0, 77, 255, 10]) = .ok [0, 77, 255, 10] :=
  ⟨by decide, b64_roundtrip [0, 77, 255, 10] (by decide)⟩

/-- C2: the decoder reads the input file's text, strips surrounding
whitespace, base64-decodes it, and writes exactly the decoded bytes to
`decoded_file.gcode`, discarding whatever that file held before.  The
witness instantiates this at the base64 encoding of `b"G1 X0 Y0\n"`
(with surrounding whitespace), whose 9 bytes are written verbatim. -/
theorem decoder_contract (input : String) (prior : Option (List Nat))
    (bs : List Nat) (h : b64decode (pyStrip input) = .ok bs) :
    decoderFS input prior = some bs := by
  simp [decoderFS, decoderRun, h]

theorem decoder_contract_witness :
    b64decode (pyStrip " RzEgWDAgWTAK\n") = .ok [71, 49, 32, 88, 48, 32, 89, 48, 10] ∧
      decoderFS " RzEgWDAgWTAK\n" (some [1, 2, 3])
        = some [71, 49, 32, 88, 48, 32, 89, 48, 10] ∧
      [71, 49, 32, 88, 48, 32, 89, 48, 10].length = 9 :=
  ⟨by decide, decoder_contract _ _ _ (by decide), by decide⟩

/-- C3 (counterexample): an input whose characters are not all in the
base64 alphabet on which the decoder nevertheless succeeds and writes an
output file, refuting "every invalid input fails with a DecodeError". -/
theorem decoder_nonalphabet_succeeds :
    ('!' ∈ "!aGlw".data ∧ decVal '!' = none ∧ '!' ≠ '=') ∧
      decoderRun "!aGlw" = .ok [104, 105, 112] ∧
      decoderFS "!aGlw" none = some [104, 105, 112] := by
  decide

/-- C3 (amended): characters outside the base64 alphabet never cause a
failure — `b64decode` silently discards them.  For inputs without `=`,
decoding succeeds iff the number of alphabet characters is a multiple
of 4, and fails with a DecodeError otherwise (wrong length/padding). -/
theorem b64decode_pad_free_ok_iff (s : String)
    (hascii : ∀ c ∈ s.data, c.toNat < 128) (hpad : '=' ∉ s.data) :
    decodeOk (b64decode s) = true ↔ dataCount s.data % 4 = 0 := by
  unfold b64decode
  rw [if_pos (List.all_eq_true.mpr fun c hc => decide_eq_true (hascii c hc))]
  unfold a2b
  have := a2bAux_ok_iff s.data hpad 0 0 0 [] (by omega)
  simpa using this

theorem b64decode_pad_free_ok_iff_witness :
    (∀ c ∈ "aG!".data, c.toNat < 128) ∧ '=' ∉ "aG!".data ∧
      (decodeOk (b64decode "aG!") = true ↔ dataCount "aG!".data % 4 = 0) :=
  ⟨by decide, by decide, b64decode_pad_free_ok_iff "aG!" (by decide) (by decide)⟩

/-- C8: there is an input containing a character outside the base64
alphabet (and distinct from the padding character) that `b64decode`
decodes successfully: without `validate=True` the non-alphabet character
is discarded before decoding. -/
theorem b64decode_discards_nonalphabet :
    (decVal '*' = none ∧ '*' ≠ '=' ∧ '*' ∈ "*TWFu".data) ∧
      b64decode "*TWFu" = .ok [77, 97, 110] := by
  decide

/-- C9: when base64 decoding of the (stripped) input fails, the output
file `decoded_file.gcode` keeps its prior state — the decode at line 8
raises before line 11 opens the output file for writing. -/
theorem decoder_no_write_on_error (input : String) (prior : Option (List Nat))
    (e : B64Error) (h : decoderRun input = .error e) :
    decoderFS input prior = prior := by
  simp [decoderFS, h]

theorem decoder_no_write_on_error_witness :
    decoderRun "a" = .error .invalidLength ∧
      decoderFS "a" (some [9, 9]) = some [9, 9] ∧ decoderFS "a" none = none :=
  ⟨by decide, decoder_no_write_on_error "a" (some [9, 9]) .invalidLength (by decide),
    decoder_no_write_on_error "a" none .invalidLength (by decide)⟩


/-! ### Claims about the slicer example client -/

/-- C4 (counterexample): a non-200 response whose body is not valid
JSON does not make the client exit with code 1 — `response.json()`
raises first — refuting the unconditional claim. -/
theorem client_non200_nonjson_counterexample :
    (slice_model "cube.stl" "out.gcode" defaultServerUrl (some [1, 2])
        { status := 500, body := none }).outcome = .raised ∧
      Outcome.raised ≠ .exit 1 := by
  exact ⟨rfl, by decide⟩

/-- C4 (amended): for every response with status ≠ 200 whose body is
valid JSON, the client prints the status code and the parsed body,
terminates with exit code 1, and does not write the output file. -/
theorem client_non200_exit1 (mp op su : String) (content : List Nat)
    (resp : Response) (j : Jval) (hs : resp.status ≠ 200)
    (hb : resp.body = some j) :
    (slice_model mp op su (some content) resp).printed
        = [.loading mp, .sending (su ++ "/slice"), .errStatus resp.status, .errBody j] ∧
      (slice_model mp op su (some content) resp).outcome = .exit 1 ∧
      (slice_model mp op su (some content) resp).written = none := by
  simp [slice_model, handleResponse, if_pos hs, hb]

theorem client_non200_exit1_witness :
    (500 ≠ 200 ∧ (Response.mk 500 (some (.jstr "boom"))).body = some (.jstr "boom")) ∧
      ((slice_model "cube.stl" "out.gcode" defaultServerUrl (some [1])
          { status := 500, body := some (.jstr "boom") }).printed
        = [.loading "cube.stl", .sending (defaultServerUrl ++ "/slice"),
           .errStatus 500, .errBody (.jstr "boom")] ∧
      (slice_model "cube.stl" "out.gcode" defaultServerUrl (some [1])
          { status := 500, body := some (.jstr "boom") }).outcome = .exit 1 ∧
      (slice_model "cube.stl" "out.gcode" defaultServerUrl (some [1])
          { status := 500, body := some (.jstr "boom") }).written = none) :=
  ⟨⟨by decide, rfl⟩,
    client_non200_exit1 "cube.stl" "out.gcode" defaultServerUrl [1]
      { status := 500, body := some (.jstr "boom") } (.jstr "boom") (by decide) rfl⟩

/-- C5: invoked with fewer than 2 command-line arguments (`argv` is
`sys.argv`, program name first), the client prints the usage message and
exits with code 1, sending no request and opening no file. -/
theorem client_usage (prog : String) (args : List String)
    (modelFile : Option (List Nat)) (resp : Response) (h : args.length < 2) :
    clientMain (prog :: args) modelFile resp
      = { printed := [.usage], requests := [], opened := [], written := none,
          outcome := .exit 1 } := by
  unfold clientMain
  rw [if_pos (by simp; omega)]

theorem client_usage_witness :
    (([] : List String).length < 2 ∧ ["model.stl"].length < 2) ∧
      clientMain ["client.py"] none { status := 200, body := none }
        = { printed := [.usage], requests := [], opened := [], written := none,
            outcome := .exit 1 } ∧
      clientMain ["client.py", "model.stl"] none { status := 200, body := none }
        = { printed := [.usage], requests := [], opened := [], written := none,
            outcome := .exit 1 } :=
  ⟨⟨by decide, by decide⟩,
    client_usage "client.py" [] none { status := 200, body := none } (by decide),
    client_usage "client.py" ["model.stl"] none { status := 200, body := none } (by decide)⟩

/-- C6: whatever the response, the client sends exactly one POST, to
`server_url ++ "/slice"` (the default server URL being localhost with
fixed port 8080), whose multipart body has the model file's binary
content as the `model` file part and as `config` text part the
double-quoted serialization of the fixed default preset mapping. -/
theorem client_request (mp op su : String) (content : List Nat) (resp : Response) :
    (slice_model mp op su (some content) resp).requests = [buildRequest su content] ∧
      buildRequest su content
        = { url := su ++ "/slice", fileField := ("model", content),
            dataField := ("config", configStr) } ∧
      defaultServerUrl = "http://localhost:8080" ∧
      configStr = "\x7b\"printer_preset\": \"Bambu Lab A1\", \"filament_preset\": \"Bambu PLA Basic @BBL A1\", \"process_preset\": \"0.20mm Standard @BBL A1\"\x7d" := by
  exact ⟨rfl, rfl, rfl, by decide⟩

/-- C7: on a 200 response whose JSON body has the `job_id`, `stats`
(with its four fields, the numeric ones numbers) and `gcode` (a base64
string decoding to `bytes`) fields, the client prints the job id and the
statistics, writes exactly the decoded bytes to the output file, prints
the output path and byte count, and the process ends with exit code 0. -/
theorem client_success (mp op su : String) (content : List Nat) (jid : Jval)
    (pt : Jval) (fl wt tc : Rat) (g : String) (bytes : List Nat)
    (hg : b64decode g = .ok bytes) :
    slice_model mp op su (some content)
        { status := 200,
          body := some (.jobj [("job_id", jid),
            ("stats", .jobj [("estimated_print_time", pt),
              ("total_used_filament", .jnum fl), ("total_weight", .jnum wt),
              ("total_cost", .jnum tc)]),
            ("gcode", .jstr g)]) }
      = { printed := [.loading mp, .sending (su ++ "/slice"), .completed,
            .jobId jid, .printTime pt, .filament fl wt, .cost tc,
            .saved op, .size bytes.length],
          requests := [buildRequest su content],
          opened := [mp, op],
          written := some bytes,
          outcome := .exit 0 } := by
  simp [slice_model, handleResponse, getField, lookupStr, hg]

theorem client_success_witness :
    b64decode "WA==" = .ok [88] ∧
      slice_model "cube.stl" "output.gcode" defaultServerUrl (some [7])
          { status := 200,
            body := some (.jobj [("job_id", .jstr "abc"),
              ("stats", .jobj [("estimated_print_time", .jstr "1h"),
                ("total_used_filament", .jnum 100.5), ("total_weight", .jnum 10.2),
                ("total_cost", .jnum 1.23)]),
              ("gcode", .jstr "WA==")]) }
        = { printed := [.loading "cube.stl", .sending (defaultServerUrl ++ "/slice"),
              .completed, .jobId (.jstr "abc"), .printTime (.jstr "1h"),
              .filament 100.5 10.2, .cost 1.23, .saved "output.gcode",
              .size [88].length],
            requests := [buildRequest defaultServerUrl [7]],
            opened := ["cube.stl", "output.gcode"],
            written := some [88],
            outcome := .exit 0 } :=
  ⟨by decide,
    client_success "cube.stl" "output.gcode" defaultServerUrl [7] (.jstr "abc")
      (.jstr "1h") 100.5 10.2 1.23 "WA==" [88] (by decide)⟩

/-- C10: for every non-200 response whose body is not valid JSON, the
client does not exit cleanly with code 1: after printing the status code
it calls `response.json()` to print the body, which raises before
`sys.exit(1)` is reached; no output file is written. -/
theorem client_non200_nonjson_raises (mp op su : String) (content : List Nat)
    (resp : Response) (hs : resp.status ≠ 200) (hb : resp.body = none) :
    (slice_model mp op su (some content) resp).outcome = .raised ∧
      (slice_model mp op su (some content) resp).outcome ≠ .exit 1 ∧
      (slice_model mp op su (some content) resp).written = none ∧
      (slice_model mp op su (some content) resp).printed
        = [.loading mp, .sending (su ++ "/slice"), .errStatus resp.status] := by
  simp [slice_model, handleResponse, if_pos hs, hb]

theorem client_non200_nonjson_raises_witness :
    (404 ≠ 200 ∧ (Response.mk 404 none).body = none) ∧
      ((slice_model "m.stl" "o.gcode" defaultServerUrl (some [3])
          { status := 404, body := none }).outcome = .raised ∧
      (slice_model "m.stl" "o.gcode" defaultServerUrl (some [3])
          { status := 404, body := none }).outcome ≠ .exit 1 ∧
      (slice_model "m.stl" "o.gcode" defaultServerUrl (some [3])
          { status := 404, body := none }).written = none ∧
      (slice_model "m.stl" "o.gcode" defaultServerUrl (some [3])
          { status := 404, body := none }).printed
        = [.loading "m.stl", .sending (defaultServerUrl ++ "/slice"), .errStatus 404]) :=
  ⟨⟨by decide, rfl⟩,
    client_non200_nonjson_raises "m.stl" "o.gcode" defaultServerUrl [3]
      { status := 404, body := none } (by decide) rfl⟩

end BambuStudio
